import Mathlib

/-!
Shallow embedding of the video-generation pipeline of `reddit_shorts/main.py`.

The pipeline's interaction with the outside world (environment variables,
the Groq chat-completion endpoint, the Speechify voice-listing and TTS
endpoints, the filesystem and the ffmpeg process) is captured by an `Env`
record supplying the outcome of each external interaction.  Each embedded
function returns, alongside its Python return value (`Except` models a
raised exception reaching the caller), the list of outbound network
requests it issued and the files it created, so that claims about "no
call is made" or "the file is deleted" are statable.

Modelling notes, all below the level any claim touches:
* JSON values carry only strings, arrays and objects (the shapes the
  pipeline reads); `json.loads` failures and missing `choices/message/
  content` keys in the Groq response are both folded into
  `Env.llmParsed = none`.
* A transcript value that is not a list of objects with string `agentId`
  and `text` fields makes the per-line loop raise (Python raises KeyError
  or TypeError at the first offending access).
* `shutil.rmtree(temp_dir, ignore_errors=True)` is modelled as succeeding:
  after a run, no file under `Env.tempDir` remains.
* The `NamedTemporaryFile` list file handed to ffmpeg is created outside
  the run's working directory and unlinked in `create_video_from_audio`'s
  own `finally`; its contents (the audio paths, in order) are reported in
  `RunOutcome.concatList`.
-/

namespace RedditShorts

/-- Minimal JSON value model for the parsed LLM response body. -/
inductive Json where
  | str : String → Json
  | arr : List Json → Json
  | obj : List (String × Json) → Json
deriving Repr, Inhabited

/-- One outbound network request, as recorded in order of issue. -/
inductive Call where
  /-- GET on the Speechify voice-listing endpoint. -/
  | voicesList : Call
  /-- POST on the Groq chat-completion endpoint; fields are the topic and
  the two persona identifiers interpolated into the prompts. -/
  | llm : String → String → String → Call
  /-- POST on the Speechify TTS endpoint; fields are the `voice_id` and
  the `input` text of the request payload. -/
  | tts : String → String → Call
deriving Repr, DecidableEq

/-- A well-formed transcript entry: `{"agentId": ..., "text": ...}`. -/
structure Entry where
  agentId : String
  text : String
deriving Repr, DecidableEq

/-- Outcome of one Speechify TTS request: HTTP status and the
`audio_data` field of the JSON body (`""` models both a missing field and
an empty payload, which Python's `not data.get('audio_data')` conflates). -/
structure TTSResp where
  status : Nat
  audio_data : String
deriving Repr, DecidableEq

/-- Everything the pipeline observes from outside.
`groqKey = none` models an unset `GROQ_API_KEY`; `speechifyKey = ""`
models an unset (or all-whitespace, after `.strip()`) `SPEECHIFY_API_KEY`.
`voicesResult` is the outcome of the voice-listing GET once issued
(`.error` covers a non-200 status and any body problem); its `.ok` value
is the list of `voice_id` fields.  `llmStatus`/`llmParsed` describe the
Groq response; `ttsResponses i` the response to the TTS request for line
`i`; `ffmpegSucceeds` whether the ffmpeg child process exits 0;
`pathExists` is `os.path.exists`; `listFileName`, `tempDir` and
`timestamp` are the names the OS hands out during the run. -/
structure Env where
  groqKey : Option String
  speechifyKey : String
  voicesResult : Except String (List String)
  llmStatus : Nat
  llmParsed : Option Json
  ttsResponses : Nat → TTSResp
  ffmpegSucceeds : Bool
  pathExists : String → Bool
  listFileName : String
  tempDir : String
  timestamp : String

/-- `s.startswith(pre)` of Python, computed structurally on the
character lists. -/
def strStartsWith (s pre : String) : Bool := pre.data.isPrefixOf s.data

/-- The static persona→voice table `VOICE_IDS` of `reddit_shorts/main.py`. -/
def VOICE_IDS : List (String × String) :=
  [("JOE_ROGAN", "emily"), ("BARACK_OBAMA", "emily"), ("BEN_SHAPIRO", "emily"),
   ("DONALD_TRUMP", "emily"), ("JOE_BIDEN", "emily"), ("KAMALA_HARRIS", "emily"),
   ("ANDREW_TATE", "emily"), ("JORDAN_PETERSON", "emily")]

/-- `get_available_voices`: raises when the key is unset (before any
request), otherwise issues the GET and returns its outcome. -/
def get_available_voices (env : Env) : Except String (List String) × List Call :=
  if env.speechifyKey = "" then (.error "SPEECHIFY_API_KEY not configured", [])
  else (env.voicesResult, [Call.voicesList])

/-- The fallback voice the orchestrator computes: the first listed voice,
`en_us_002` when the list is empty, and `en_us_002` when the voices step
raised (the orchestrator swallows that exception). -/
def resolveFallback (env : Env) : String :=
  match (get_available_voices env).1 with
  | .ok vs => vs.headD "en_us_002"
  | .error _ => "en_us_002"

/-- `generate_transcript`: raises when `GROQ_API_KEY` is unset (before the
request); otherwise issues the chat-completion POST, raises on a non-200
status or an unparsable body, and returns `parsed.get('transcript', [])`
— the raw JSON value, with a missing key silently defaulting to `[]`. -/
def generate_transcript (env : Env) (topic agent_a agent_b : String) :
    Except String Json × List Call :=
  match env.groqKey with
  | none => (.error "GROQ_API_KEY not configured", [])
  | some _ =>
    let call := Call.llm topic agent_a agent_b
    if env.llmStatus ≠ 200 then (.error "Groq API error", [call])
    else
      match env.llmParsed with
      | none => (.error "JSONDecodeError", [call])
      | some (Json.obj fields) =>
          (.ok ((fields.lookup "transcript").getD (Json.arr [])), [call])
      | some _ => (.error "AttributeError", [call])

/-- The substitution `generate_audio` performs on its `voice_id` argument
before building the request payload (lines 95–96 of the source). -/
def ttsVoice (voice_id : String) : String :=
  if voice_id = "" ∨ voice_id = "your_joe_rogan_voice_id" then "en_us_002" else voice_id

/-- `generate_audio`: raises when `SPEECHIFY_API_KEY` is unset (before the
request); otherwise issues the TTS POST for line `index`, raises on a
non-200 status or a missing/empty `audio_data` field, and on success
writes `{person}-{index}.mp3` in `output_dir` and returns its path. -/
def generate_audio (env : Env) (voice_id person line : String) (index : Nat)
    (output_dir : String) : Except String String × List Call :=
  if env.speechifyKey = "" then (.error "SPEECHIFY_API_KEY not configured", [])
  else
    let r := env.ttsResponses index
    let call := Call.tts (ttsVoice voice_id) line
    if r.status ≠ 200 then (.error "Speechify API error", [call])
    else if r.audio_data = "" then
      (.error "No audio data received from Speechify", [call])
    else (.ok (output_dir ++ "/" ++ person ++ "-" ++ toString index ++ ".mp3"), [call])

/-- The per-line voice binding the orchestrator's loop performs
(lines 201–205 of the source): table lookup with the fallback as default,
then fallback again for empty or placeholder values. -/
def bindVoice (fallback agentId : String) : String :=
  let v := (VOICE_IDS.lookup agentId).getD fallback
  if v = "" ∨ strStartsWith v "your_" ∨ v = "your_joe_rogan_voice_id" then fallback else v

/-- Reading one transcript entry as the loop body does: `entry['agentId']`
and `entry['text']` (a non-object entry or missing/non-string field makes
Python raise). -/
def entryOf : Json → Except String Entry
  | Json.obj fields =>
    match fields.lookup "agentId", fields.lookup "text" with
    | some (Json.str a), some (Json.str t) => .ok { agentId := a, text := t }
    | _, _ => .error "KeyError"
  | _ => .error "TypeError"

/-- The orchestrator's synthesis loop over the transcript entries,
starting at index `i`: binds a voice per entry, calls `generate_audio`,
and accumulates (result, issued calls, files written).  The first raise
aborts the loop, as in the source. -/
def synthLoop (env : Env) (fallback voice_dir : String) :
    List Json → Nat → Except String (List String) × List Call × List String
  | [], _ => (.ok [], [], [])
  | j :: rest, i =>
    match entryOf j with
    | .error msg => (.error msg, [], [])
    | .ok e =>
      match generate_audio env (bindVoice fallback e.agentId) e.agentId e.text i voice_dir with
      | (.error msg, cs) => (.error msg, cs, [])
      | (.ok path, cs) =>
        match synthLoop env fallback voice_dir rest (i + 1) with
        | (.error msg, cs2, fs2) => (.error msg, cs ++ cs2, path :: fs2)
        | (.ok paths, cs2, fs2) => (.ok (path :: paths), cs ++ cs2, path :: fs2)

/-- The fixed concat/stream-copy prefix of the ffmpeg command
(lines 137–144 of the source). -/
def concatBase (env : Env) : List String :=
  ["ffmpeg", "-y", "-f", "concat", "-safe", "0", "-i", env.listFileName,
   "-c", "copy", "-shortest"]

/-- The `amix` filter string of line 150 of the source. -/
def amixFilter : String := "[0:a][1:a]amix=inputs=2:duration=first:weights=1,0.3[a]"

/-- The arguments appended when background music is used (lines 148–152). -/
def mixArgs (background_music : String) : List String :=
  ["-i", background_music, "-filter_complex", amixFilter, "-map", "[a]"]

/-- The argument vector `create_video_from_audio` hands to ffmpeg: the
concat/stream-copy prefix, extended with the mix arguments when a
background-music path is supplied, non-empty and exists on disk, then the
output path. -/
def buildFfmpegCmd (env : Env) (output_path : String)
    (background_music : Option String) : List String :=
  let base := concatBase env
  let cmd :=
    match background_music with
    | some bm => if bm ≠ "" ∧ env.pathExists bm then base ++ mixArgs bm else base
    | none => base
  cmd ++ [output_path]

/-- `create_video_from_audio`: writes the list file (one line per audio
path, in order), runs ffmpeg, unlinks the list file, and returns whether
ffmpeg exited 0 — a missing background-music file is silently ignored and
an ffmpeg failure is returned as `false`, never raised.  The result also
reports the command and the list-file contents for inspection. -/
def create_video_from_audio (env : Env) (audio_files : List String)
    (output_path : String) (background_music : Option String) :
    Bool × List String × List String :=
  (env.ffmpegSucceeds, buildFfmpegCmd env output_path background_music, audio_files)

instance {ε α : Type} [DecidableEq ε] [DecidableEq α] : DecidableEq (Except ε α) := fun x y =>
  match x, y with
  | .ok a, .ok b =>
    if h : a = b then isTrue (by rw [h]) else isFalse (fun hc => by cases hc; exact h rfl)
  | .error a, .error b =>
    if h : a = b then isTrue (by rw [h]) else isFalse (fun hc => by cases hc; exact h rfl)
  | .ok _, .error _ => isFalse (fun hc => by cases hc)
  | .error _, .ok _ => isFalse (fun hc => by cases hc)

/-- Observable outcome of one `run_local_video_generation` call:
the Python return value or raised exception, the outbound requests in
order, the ffmpeg command and list-file contents when assembly was
reached, and the files (in `runBody`: created during the run; in
`run_local_video_generation`: still existing after cleanup). -/
structure RunOutcome where
  result : Except String String
  calls : List Call
  ffmpegCmd : Option (List String)
  concatList : Option (List String)
  files : List String
deriving Repr, DecidableEq

/-- The body of `run_local_video_generation` (everything inside the
`try`, plus the title/story guard that precedes the working-directory
creation).  `filter`, `voice` and `background_video` are accepted and,
as in the source, never read. -/
def runBody (filter : Bool) (voice : String)
    (background_video background_music title story : Option String)
    (env : Env) : RunOutcome :=
  if title.getD "" = "" ∨ story.getD "" = "" then
    { result := .error "Title and story are required", calls := [],
      ffmpegCmd := none, concatList := none, files := [] }
  else
    let calls0 := (get_available_voices env).2
    let fallback_voice := resolveFallback env
    let voice_dir := env.tempDir ++ "/voice"
    match generate_transcript env (story.getD "") "JOE_ROGAN" "BEN_SHAPIRO" with
    | (.error msg, cs) =>
      { result := .error msg, calls := calls0 ++ cs,
        ffmpegCmd := none, concatList := none, files := [] }
    | (.ok transcriptJson, cs) =>
      match transcriptJson with
      | Json.arr items =>
        match synthLoop env fallback_voice voice_dir items 0 with
        | (.error msg, cs2, fs2) =>
          { result := .error msg, calls := calls0 ++ cs ++ cs2,
            ffmpegCmd := none, concatList := none, files := fs2 }
        | (.ok audio_files, cs2, fs2) =>
          let video_filename := "generated_video_" ++ env.timestamp ++ ".mp4"
          let video_path := env.tempDir ++ "/" ++ video_filename
          let step := create_video_from_audio env audio_files video_path background_music
          if step.1 then
            { result := .ok ("uploads/" ++ video_filename),
              calls := calls0 ++ cs ++ cs2,
              ffmpegCmd := some step.2.1, concatList := some step.2.2,
              files := fs2 ++ [video_path, "uploads/" ++ video_filename] }
          else
            { result := .error "Failed to create video",
              calls := calls0 ++ cs ++ cs2,
              ffmpegCmd := some step.2.1, concatList := some step.2.2,
              files := fs2 }
      | _ =>
        { result := .error "TypeError", calls := calls0 ++ cs,
          ffmpegCmd := none, concatList := none, files := [] }

/-- `run_local_video_generation`: the body wrapped in the `finally` that
removes the run's working directory, so only files outside `env.tempDir`
survive. -/
def run_local_video_generation (filter : Bool) (voice : String)
    (background_video background_music title story : Option String)
    (env : Env) : RunOutcome :=
  let b := runBody filter voice background_video background_music title story env
  { b with files := b.files.filter (fun p => !(strStartsWith p env.tempDir)) }

/-! Expected-value functions, used only in theorem statements. -/

/-- The audio-artifact path the source produces for the entry at
(0-based) index `i`: `{voice_dir}/{agentId}-{i}.mp3`. -/
def artifactPaths (voice_dir : String) : List Entry → Nat → List String
  | [], _ => []
  | e :: rest, i =>
    (voice_dir ++ "/" ++ e.agentId ++ "-" ++ toString i ++ ".mp3") ::
      artifactPaths voice_dir rest (i + 1)

/-- The TTS requests a fully successful synthesis loop issues, in order. -/
def ttsCalls (fallback : String) (es : List Entry) : List Call :=
  es.map (fun e => Call.tts (ttsVoice (bindVoice fallback e.agentId)) e.text)

/-- Whether a recorded request is a TTS (speech-synthesis) request. -/
def Call.isTTS : Call → Bool
  | .tts _ _ => true
  | _ => false

/-- Whether a recorded request is an LLM (chat-completion) request. -/
def Call.isLLM : Call → Bool
  | .llm _ _ _ => true
  | _ => false

/-- Whether a recorded request is a voice-listing request. -/
def Call.isVoices : Call → Bool
  | .voicesList => true
  | _ => false

/-- Whether the Python call returned normally (rather than raising). -/
def isOkResult {α : Type} : Except String α → Bool
  | .ok _ => true
  | .error _ => false

/-! Concrete environments for counterexamples and witnesses. -/

/-- A two-line well-formed transcript body, as the Groq prompt demands. -/
def goodTranscriptJson : Json :=
  Json.obj [("transcript", Json.arr
    [Json.obj [("agentId", Json.str "JOE_ROGAN"), ("text", Json.str "hello")],
     Json.obj [("agentId", Json.str "BEN_SHAPIRO"), ("text", Json.str "facts")]])]

/-- A successful Speechify TTS response. -/
def goodTTS : TTSResp := { status := 200, audio_data := "QUJD" }

/-- An environment in which every external interaction succeeds. -/
def envGood : Env :=
  { groqKey := some "gk", speechifyKey := "sk",
    voicesResult := Except.ok ["emily"],
    llmStatus := 200, llmParsed := some goodTranscriptJson,
    ttsResponses := fun _ => goodTTS,
    ffmpegSucceeds := true,
    pathExists := fun _ => false,
    listFileName := "/tmp/list.txt", tempDir := "/tmp/run1",
    timestamp := "20240101_000000" }

/-- The two transcript entries of `goodTranscriptJson`. -/
def demoEntries : List Entry :=
  [{ agentId := "JOE_ROGAN", text := "hello" }, { agentId := "BEN_SHAPIRO", text := "facts" }]

/-- A transcript entry whose agentId names no known persona. -/
def elonEntry : Entry := { agentId := "ELON_MUSK", text := "hi" }

/-- Like `envGood`, but the LLM transcript contains a single entry whose
agentId is outside the persona set. -/
def envC1 : Env :=
  { envGood with
    llmParsed := some (Json.obj [("transcript", Json.arr
      [Json.obj [("agentId", Json.str "ELON_MUSK"), ("text", Json.str "hi")]])]) }

/-- Like `envGood`, but the Groq key is absent. -/
def envNoGroq : Env := { envGood with groqKey := none }

/-- Like `envGood`, but the Speechify key is absent. -/
def envNoSpeechify : Env := { envGood with speechifyKey := "" }

/-- Like `envGood`, but the voice-listing request fails. -/
def envVoicesDown : Env := { envGood with voicesResult := (Except.error "boom") }

/-- Like `envGood`, but the ffmpeg invocation exits non-zero. -/
def envFfmpegFail : Env := { envGood with ffmpegSucceeds := false }

/-- Like `envGood`, but the LLM body is a JSON object with no
`transcript` key. -/
def envC5 : Env := { envGood with llmParsed := some (Json.obj [("foo", Json.str "x")]) }

/-- Like `envGood`, but the LLM body is not valid JSON. -/
def envBadJson : Env := { envGood with llmParsed := none }

/-- Like `envGood`, but exactly the file `bgm.mp3` exists on disk. -/
def envC6 : Env := { envGood with pathExists := fun s => s == "bgm.mp3" }

/-! Helper lemmas about the embedded functions. -/

lemma all_filter_self {α : Type} (l : List α) (p : α → Bool) :
    (l.filter p).all p = true := by
  induction l with
  | nil => rfl
  | cons a t ih =>
    by_cases h : p a = true <;> simp [List.filter_cons, h, ih]

lemma run_files_filtered (filter : Bool) (voice : String)
    (background_video background_music title story : Option String) (env : Env) :
    (run_local_video_generation filter voice background_video background_music
        title story env).files =
      (runBody filter voice background_video background_music title story env).files.filter
        (fun p => !(strStartsWith p env.tempDir)) := rfl

lemma generate_audio_ok (env : Env) (hk : ¬ env.speechifyKey = "") (index : Nat)
    (h1 : (env.ttsResponses index).status = 200)
    (h2 : ¬ (env.ttsResponses index).audio_data = "")
    (voice_id person line output_dir : String) :
    generate_audio env voice_id person line index output_dir =
      (.ok (output_dir ++ "/" ++ person ++ "-" ++ toString index ++ ".mp3"),
       [Call.tts (ttsVoice voice_id) line]) := by
  simp [generate_audio, hk, h1, h2]

lemma synthLoop_ok (env : Env) (fallback voice_dir : String)
    (hk : ¬ env.speechifyKey = "")
    (htts : ∀ j, (env.ttsResponses j).status = 200 ∧ ¬ (env.ttsResponses j).audio_data = "") :
    ∀ (items : List Json) (es : List Entry) (i : Nat),
      items.mapM entryOf = Except.ok es →
      synthLoop env fallback voice_dir items i =
        (.ok (artifactPaths voice_dir es i), ttsCalls fallback es,
         artifactPaths voice_dir es i) := by
  intro items
  induction items with
  | nil =>
    intro es i h
    simp only [List.mapM_nil] at h
    cases h
    simp [synthLoop, artifactPaths, ttsCalls]
  | cons j rest ih =>
    intro es i h
    rw [List.mapM_cons] at h
    cases hj : entryOf j with
    | error m => rw [hj] at h; cases h
    | ok e =>
      rw [hj] at h
      cases hrest : rest.mapM entryOf with
      | error m => rw [hrest] at h; cases h
      | ok es' =>
        rw [hrest] at h
        cases h
        simp only [synthLoop, hj,
          generate_audio_ok env hk i (htts i).1 (htts i).2,
          ih es' (i + 1) hrest, artifactPaths, ttsCalls, List.map_cons]
        simp

lemma gav_key (env : Env) (hk : ¬ env.speechifyKey = "") :
    get_available_voices env = (env.voicesResult, [Call.voicesList]) := by
  simp [get_available_voices, hk]

/-- On an all-successful run, the result is the uploads path, the calls
are the voice listing, the LLM request with hard-coded personas and topic
= story, then one TTS request per transcript entry, and the concat list
is the artifact paths in transcript order. -/
lemma run_success (filter : Bool) (voice : String)
    (background_video background_music title story : Option String) (env : Env)
    (t s k : String) (fields : List (String × Json)) (items : List Json)
    (es : List Entry)
    (ht : title = some t) (ht' : ¬ t = "") (hs : story = some s) (hs' : ¬ s = "")
    (hg : env.groqKey = some k) (hst : env.llmStatus = 200)
    (hp : env.llmParsed = some (Json.obj fields))
    (htr : (fields.lookup "transcript").getD (Json.arr []) = Json.arr items)
    (hes : items.mapM entryOf = Except.ok es)
    (hk : ¬ env.speechifyKey = "")
    (htts : ∀ j, (env.ttsResponses j).status = 200 ∧ ¬ (env.ttsResponses j).audio_data = "")
    (hff : env.ffmpegSucceeds = true) :
    (run_local_video_generation filter voice background_video background_music
        title story env).result =
        .ok ("uploads/" ++ ("generated_video_" ++ env.timestamp ++ ".mp4")) ∧
    (run_local_video_generation filter voice background_video background_music
        title story env).calls =
        Call.voicesList :: Call.llm s "JOE_ROGAN" "BEN_SHAPIRO" ::
          ttsCalls (resolveFallback env) es ∧
    (run_local_video_generation filter voice background_video background_music
        title story env).concatList =
        some (artifactPaths (env.tempDir ++ "/voice") es 0) := by
  subst ht hs
  have hbody :
      runBody filter voice background_video background_music (some t) (some s) env =
      { result := .ok ("uploads/" ++ ("generated_video_" ++ env.timestamp ++ ".mp4")),
        calls := Call.voicesList :: Call.llm s "JOE_ROGAN" "BEN_SHAPIRO" ::
          ttsCalls (resolveFallback env) es,
        ffmpegCmd := some (buildFfmpegCmd env
          (env.tempDir ++ "/" ++ ("generated_video_" ++ env.timestamp ++ ".mp4"))
          background_music),
        concatList := some (artifactPaths (env.tempDir ++ "/voice") es 0),
        files := artifactPaths (env.tempDir ++ "/voice") es 0 ++
          [env.tempDir ++ "/" ++ ("generated_video_" ++ env.timestamp ++ ".mp4"),
           "uploads/" ++ ("generated_video_" ++ env.timestamp ++ ".mp4")] } := by
    rw [runBody]
    rw [if_neg (by simp [ht', hs'])]
    simp only [Option.getD_some, generate_transcript, hg, hst, hp, htr,
      gav_key env hk, create_video_from_audio, hff]
    rw [if_neg (show ¬ ((200 : Nat) ≠ 200) by norm_num)]
    simp [synthLoop_ok env (resolveFallback env) (env.tempDir ++ "/voice") hk htts items es 0 hes]
  rw [run_local_video_generation, hbody]
  simp

/-- When every per-line synthesis succeeds, the assembler's input (the
concat list) is the artifact paths in transcript order — whatever the
ffmpeg invocation then does.  Both assembly branches hand over the same
list. -/
lemma run_assembler_input (filter : Bool) (voice : String)
    (background_video background_music title story : Option String) (env : Env)
    (t s k : String) (fields : List (String × Json)) (items : List Json)
    (es : List Entry)
    (ht : title = some t) (ht' : ¬ t = "") (hs : story = some s) (hs' : ¬ s = "")
    (hg : env.groqKey = some k) (hst : env.llmStatus = 200)
    (hp : env.llmParsed = some (Json.obj fields))
    (htr : (fields.lookup "transcript").getD (Json.arr []) = Json.arr items)
    (hes : items.mapM entryOf = Except.ok es)
    (hk : ¬ env.speechifyKey = "")
    (htts : ∀ j, (env.ttsResponses j).status = 200 ∧ ¬ (env.ttsResponses j).audio_data = "") :
    (run_local_video_generation filter voice background_video background_music
        title story env).concatList =
        some (artifactPaths (env.tempDir ++ "/voice") es 0) := by
  subst ht hs
  have hconcat : (run_local_video_generation filter voice background_video
      background_music (some t) (some s) env).concatList =
      (runBody filter voice background_video background_music
        (some t) (some s) env).concatList := rfl
  rw [hconcat]
  rw [runBody]
  rw [if_neg (by simp [ht', hs'])]
  simp only [Option.getD_some, generate_transcript, hg, hst, hp, htr,
    gav_key env hk, create_video_from_audio]
  rw [if_neg (show ¬ ((200 : Nat) ≠ 200) by norm_num)]
  simp [synthLoop_ok env (resolveFallback env) (env.tempDir ++ "/voice") hk htts items es 0 hes,
    apply_ite RunOutcome.concatList, ite_self]

lemma gav_calls (env : Env) (c : Call) (hc : c ∈ (get_available_voices env).2) :
    c = Call.voicesList := by
  by_cases hk : env.speechifyKey = "" <;> simp [get_available_voices, hk] at hc <;> simp [hc]

lemma gt_calls (env : Env) (topic agent_a agent_b : String) (c : Call)
    (hc : c ∈ (generate_transcript env topic agent_a agent_b).2) :
    c = Call.llm topic agent_a agent_b := by
  unfold generate_transcript at hc
  rcases hg : env.groqKey with _ | k
  · simp only [hg] at hc
    simp at hc
  · simp only [hg] at hc
    split at hc
    · simp at hc; exact hc
    · split at hc <;> simp at hc <;> exact hc

lemma generate_audio_calls (env : Env) (voice_id person line : String) (index : Nat)
    (output_dir : String) (c : Call)
    (hc : c ∈ (generate_audio env voice_id person line index output_dir).2) :
    c.isTTS = true := by
  simp only [generate_audio] at hc
  split at hc
  · simp at hc
  · split at hc
    · simp at hc; simp [hc, Call.isTTS]
    · split at hc <;> simp at hc <;> simp [hc, Call.isTTS]

lemma synthLoop_calls (env : Env) (fallback voice_dir : String) :
    ∀ (items : List Json) (i : Nat) (c : Call),
      c ∈ (synthLoop env fallback voice_dir items i).2.1 → c.isTTS = true := by
  intro items
  induction items with
  | nil => intro i c hc; simp [synthLoop] at hc
  | cons j rest ih =>
    intro i c hc
    unfold synthLoop at hc
    cases hj : entryOf j with
    | error m => rw [hj] at hc; simp at hc
    | ok e =>
      rw [hj] at hc
      simp only at hc
      cases ha : generate_audio env (bindVoice fallback e.agentId) e.agentId e.text i voice_dir with
      | mk res cs =>
        rw [ha] at hc
        cases res with
        | error m =>
          simp only at hc
          exact generate_audio_calls env _ _ _ i _ c (by rw [ha]; exact hc)
        | ok path =>
          simp only at hc
          cases hrec : synthLoop env fallback voice_dir rest (i + 1) with
          | mk res2 rest2 =>
            cases res2 with
            | error m =>
              rw [hrec] at hc
              simp only [List.mem_append] at hc
              rcases hc with hc | hc
              · exact generate_audio_calls env _ _ _ i _ c (by rw [ha]; exact hc)
              · exact ih (i + 1) c (by rw [hrec]; exact hc)
            | ok paths =>
              rw [hrec] at hc
              simp only [List.mem_append] at hc
              rcases hc with hc | hc
              · exact generate_audio_calls env _ _ _ i _ c (by rw [ha]; exact hc)
              · exact ih (i + 1) c (by rw [hrec]; exact hc)

/-- Every outbound request a run issues is the voice listing, the single
LLM request (whose topic is the story and whose personas are the
hard-coded pair), or a TTS request. -/
lemma run_calls_mem (filter : Bool) (voice : String)
    (background_video background_music title story : Option String) (env : Env)
    (c : Call)
    (hc : c ∈ (run_local_video_generation filter voice background_video
      background_music title story env).calls) :
    c = Call.voicesList ∨
    c = Call.llm (story.getD "") "JOE_ROGAN" "BEN_SHAPIRO" ∨
    c.isTTS = true := by
  have hcalls : (run_local_video_generation filter voice background_video
      background_music title story env).calls =
      (runBody filter voice background_video background_music title story env).calls := rfl
  rw [hcalls] at hc
  unfold runBody at hc
  by_cases hts : title.getD "" = "" ∨ story.getD "" = ""
  · rw [if_pos hts] at hc; simp at hc
  · rw [if_neg hts] at hc
    simp only at hc
    cases hgt : generate_transcript env (story.getD "") "JOE_ROGAN" "BEN_SHAPIRO" with
    | mk res cs =>
      rw [hgt] at hc
      have hcs : ∀ d, d ∈ cs → d = Call.llm (story.getD "") "JOE_ROGAN" "BEN_SHAPIRO" := by
        intro d hd
        exact gt_calls env _ _ _ d (by rw [hgt]; exact hd)
      cases res with
      | error m =>
        simp only [List.mem_append] at hc
        rcases hc with hc | hc
        · exact Or.inl (gav_calls env c hc)
        · exact Or.inr (Or.inl (hcs c hc))
      | ok tj =>
        cases tj with
        | str v =>
          simp only [List.mem_append] at hc
          rcases hc with hc | hc
          · exact Or.inl (gav_calls env c hc)
          · exact Or.inr (Or.inl (hcs c hc))
        | obj v =>
          simp only [List.mem_append] at hc
          rcases hc with hc | hc
          · exact Or.inl (gav_calls env c hc)
          · exact Or.inr (Or.inl (hcs c hc))
        | arr items =>
          simp only at hc
          rcases hsl : synthLoop env (resolveFallback env) (env.tempDir ++ "/voice") items 0 with
            ⟨res2, cs2, fs2⟩
          have htts2 : ∀ d, d ∈ cs2 → d.isTTS = true := by
            intro d hd
            exact synthLoop_calls env _ _ items 0 d (by rw [hsl]; exact hd)
          rw [hsl] at hc
          cases res2 with
          | error m =>
            simp only [List.mem_append] at hc
            rcases hc with (hc | hc) | hc
            · exact Or.inl (gav_calls env c hc)
            · exact Or.inr (Or.inl (hcs c hc))
            · exact Or.inr (Or.inr (htts2 c hc))
          | ok paths =>
            simp only [apply_ite RunOutcome.calls, ite_self, List.mem_append] at hc
            rcases hc with (hc | hc) | hc
            · exact Or.inl (gav_calls env c hc)
            · exact Or.inr (Or.inl (hcs c hc))
            · exact Or.inr (Or.inr (htts2 c hc))

lemma gt_nokey (env : Env) (topic agent_a agent_b : String) (hg : env.groqKey = none) :
    generate_transcript env topic agent_a agent_b =
      (.error "GROQ_API_KEY not configured", []) := by
  unfold generate_transcript
  rw [hg]

lemma gav_nokey (env : Env) (hk : env.speechifyKey = "") :
    get_available_voices env = (.error "SPEECHIFY_API_KEY not configured", []) := by
  simp [get_available_voices, hk]

lemma generate_audio_nokey (env : Env) (voice_id person line : String) (index : Nat)
    (output_dir : String) (hk : env.speechifyKey = "") :
    generate_audio env voice_id person line index output_dir =
      (.error "SPEECHIFY_API_KEY not configured", []) := by
  simp [generate_audio, hk]

/-- With no TTS key, the synthesis loop issues no request at all: the
first line's `generate_audio` raises before its POST. -/
lemma synthLoop_nokey (env : Env) (fallback voice_dir : String)
    (items : List Json) (i : Nat) (hk : env.speechifyKey = "") :
    (synthLoop env fallback voice_dir items i).2.1 = [] := by
  cases items with
  | nil => rfl
  | cons j rest =>
    unfold synthLoop
    cases hj : entryOf j with
    | error m => rfl
    | ok e => simp [generate_audio_nokey env _ _ _ i _ hk]

/-- When the voice-listing step raises (here: its GET fails), the
orchestrator's fallback voice is the hard-coded `en_us_002`. -/
lemma resolveFallback_error (env : Env) (msg : String)
    (hv : env.voicesResult = Except.error msg) : resolveFallback env = "en_us_002" := by
  unfold resolveFallback get_available_voices
  by_cases hk : env.speechifyKey = "" <;> simp [hk, hv]

/-- An agentId absent from the static table binds to the fallback voice. -/
lemma bindVoice_unknown (fallback agentId : String)
    (h : VOICE_IDS.lookup agentId = none) : bindVoice fallback agentId = fallback := by
  simp [bindVoice, h]

lemma ttsCalls_mem (fallback : String) (es : List Entry) (e : Entry) (he : e ∈ es) :
    Call.tts (ttsVoice (bindVoice fallback e.agentId)) e.text ∈ ttsCalls fallback es := by
  exact List.mem_map_of_mem _ he

lemma artifactPaths_length (voice_dir : String) :
    ∀ (es : List Entry) (i : Nat), (artifactPaths voice_dir es i).length = es.length := by
  intro es
  induction es with
  | nil => intro i; rfl
  | cons e rest ih => intro i; simp [artifactPaths, ih]

lemma ttsCalls_length (fallback : String) (es : List Entry) :
    (ttsCalls fallback es).length = es.length := by
  simp [ttsCalls]

/-- With no Groq key, a run raises and the only request it can have
issued is the voice listing. -/
lemma run_nogroq (filter : Bool) (voice : String)
    (background_video background_music title story : Option String) (env : Env)
    (hg : env.groqKey = none) :
    isOkResult (run_local_video_generation filter voice background_video
        background_music title story env).result = false ∧
    ∀ c ∈ (run_local_video_generation filter voice background_video
        background_music title story env).calls, c = Call.voicesList := by
  have hres : (run_local_video_generation filter voice background_video
      background_music title story env).result =
      (runBody filter voice background_video background_music title story env).result := rfl
  have hcalls : (run_local_video_generation filter voice background_video
      background_music title story env).calls =
      (runBody filter voice background_video background_music title story env).calls := rfl
  rw [hres, hcalls]
  unfold runBody
  by_cases hts : title.getD "" = "" ∨ story.getD "" = ""
  · rw [if_pos hts]
    exact ⟨rfl, by intro c hc; simp at hc⟩
  · rw [if_neg hts]
    simp only [gt_nokey env _ _ _ hg]
    refine ⟨rfl, ?_⟩
    intro c hc
    simp only [List.append_nil] at hc
    exact gav_calls env c hc

/-- With no Speechify key, every request a run issues is the LLM request
(with the hard-coded personas): the voice listing and every synthesis
raise before their network calls. -/
lemma run_calls_nokey (filter : Bool) (voice : String)
    (background_video background_music title story : Option String) (env : Env)
    (hk : env.speechifyKey = "") :
    ∀ c ∈ (run_local_video_generation filter voice background_video
        background_music title story env).calls,
      c = Call.llm (story.getD "") "JOE_ROGAN" "BEN_SHAPIRO" := by
  have hcalls : (run_local_video_generation filter voice background_video
      background_music title story env).calls =
      (runBody filter voice background_video background_music title story env).calls := rfl
  rw [hcalls]
  unfold runBody
  by_cases hts : title.getD "" = "" ∨ story.getD "" = ""
  · rw [if_pos hts]; intro c hc; simp at hc
  · rw [if_neg hts]
    simp only [gav_nokey env hk]
    intro c hc
    cases hgt : generate_transcript env (story.getD "") "JOE_ROGAN" "BEN_SHAPIRO" with
    | mk res cs =>
      rw [hgt] at hc
      have hcs : ∀ d ∈ cs, d = Call.llm (story.getD "") "JOE_ROGAN" "BEN_SHAPIRO" := by
        intro d hd
        exact gt_calls env _ _ _ d (by rw [hgt]; exact hd)
      cases res with
      | error m => simp only [List.nil_append] at hc; exact hcs c hc
      | ok tj =>
        cases tj with
        | str v => simp only [List.nil_append] at hc; exact hcs c hc
        | obj v => simp only [List.nil_append] at hc; exact hcs c hc
        | arr items =>
          simp only at hc
          rcases hsl : synthLoop env (resolveFallback env) (env.tempDir ++ "/voice") items 0 with
            ⟨res2, cs2, fs2⟩
          have hcs2 : cs2 = [] := by
            have := synthLoop_nokey env (resolveFallback env) (env.tempDir ++ "/voice") items 0 hk
            rw [hsl] at this
            exact this
          rw [hsl] at hc
          subst hcs2
          cases res2 with
          | error m =>
            simp only [List.nil_append, List.append_nil] at hc
            exact hcs c hc
          | ok paths =>
            simp only [apply_ite RunOutcome.calls, ite_self, List.nil_append,
              List.append_nil] at hc
            exact hcs c hc

/-! Claim theorems. -/

/-- C1 (counterexample): the transcript contains a single entry whose
agentId `ELON_MUSK` is outside {speakerA, speakerB} (and outside the
whole persona table), yet the run succeeds, a TTS synthesis request is
issued for that line, and one audio artifact is produced — the pipeline
does not fail with MalformedResponse and does not produce zero
AudioArtifacts. -/
theorem C1_agentid_not_validated_cex :
    isOkResult (run_local_video_generation false "en_us_002" none none
      (some "t") (some "s") envC1).result = true ∧
    (run_local_video_generation false "en_us_002" none none
      (some "t") (some "s") envC1).calls =
      [Call.voicesList, Call.llm "s" "JOE_ROGAN" "BEN_SHAPIRO",
       Call.tts "emily" "hi"] ∧
    (run_local_video_generation false "en_us_002" none none
      (some "t") (some "s") envC1).concatList =
      some ["/tmp/run1/voice/ELON_MUSK-0.mp3"] := by
  refine ⟨rfl, rfl, rfl⟩

/-- C1 (amended): no agentId validation occurs.  On an otherwise
successful run, an entry whose agentId is outside the persona table is
bound to the fallback voice, a synthesis request is issued for its text,
the run succeeds, and the assembler still receives one artifact per
transcript line. -/
theorem C1_agentid_unknown_synthesized (filter : Bool) (voice : String)
    (background_video background_music title story : Option String) (env : Env)
    (t s k : String) (fields : List (String × Json)) (items : List Json)
    (es : List Entry) (e : Entry)
    (ht : title = some t) (ht' : ¬ t = "") (hs : story = some s) (hs' : ¬ s = "")
    (hg : env.groqKey = some k) (hst : env.llmStatus = 200)
    (hp : env.llmParsed = some (Json.obj fields))
    (htr : (fields.lookup "transcript").getD (Json.arr []) = Json.arr items)
    (hes : items.mapM entryOf = Except.ok es)
    (hk : ¬ env.speechifyKey = "")
    (htts : ∀ j, (env.ttsResponses j).status = 200 ∧ ¬ (env.ttsResponses j).audio_data = "")
    (hff : env.ffmpegSucceeds = true)
    (he : e ∈ es) (hu : VOICE_IDS.lookup e.agentId = none) :
    isOkResult (run_local_video_generation filter voice background_video
      background_music title story env).result = true ∧
    Call.tts (ttsVoice (resolveFallback env)) e.text ∈
      (run_local_video_generation filter voice background_video
        background_music title story env).calls ∧
    (run_local_video_generation filter voice background_video
      background_music title story env).concatList =
      some (artifactPaths (env.tempDir ++ "/voice") es 0) ∧
    (artifactPaths (env.tempDir ++ "/voice") es 0).length = es.length := by
  obtain ⟨h1, h2, h3⟩ := run_success filter voice background_video background_music
    title story env t s k fields items es ht ht' hs hs' hg hst hp htr hes hk htts hff
  refine ⟨by rw [h1]; rfl, ?_, h3, artifactPaths_length _ es 0⟩
  rw [h2]
  have := ttsCalls_mem (resolveFallback env) es e he
  rw [bindVoice_unknown _ _ hu] at this
  exact List.mem_cons_of_mem _ (List.mem_cons_of_mem _ this)

/-- C1 (witness). -/
theorem C1_agentid_unknown_synthesized_witness :
    isOkResult (run_local_video_generation false "en_us_002" none none
      (some "t") (some "s") envC1).result = true ∧
    Call.tts (ttsVoice (resolveFallback envC1)) elonEntry.text ∈
      (run_local_video_generation false "en_us_002" none none
        (some "t") (some "s") envC1).calls ∧
    (run_local_video_generation false "en_us_002" none none
      (some "t") (some "s") envC1).concatList =
      some (artifactPaths (envC1.tempDir ++ "/voice") [elonEntry] 0) ∧
    (artifactPaths (envC1.tempDir ++ "/voice") [elonEntry] 0).length =
      ([elonEntry] : List Entry).length :=
  C1_agentid_unknown_synthesized false "en_us_002" none none (some "t") (some "s")
    envC1 "t" "s" "gk"
    [("transcript", Json.arr
      [Json.obj [("agentId", Json.str "ELON_MUSK"), ("text", Json.str "hi")]])]
    [Json.obj [("agentId", Json.str "ELON_MUSK"), ("text", Json.str "hi")]]
    [elonEntry] elonEntry rfl (by decide) rfl (by decide) rfl rfl rfl rfl rfl
    (by decide) (fun j => ⟨rfl, by simp [envC1, envGood, goodTTS]⟩) rfl
    (by decide) (by decide)

/-- C2 (counterexample): the entry point has no persona parameters, and
on a concrete invocation the LLM request carries the hard-coded personas
JOE_ROGAN and BEN_SHAPIRO whatever the caller passes — here two
invocations differing in the caller-controlled `voice` and
`background_video` arguments issue the identical request trace, whose
personas the caller never supplied. -/
theorem C2_personas_hardcoded_cex :
    (run_local_video_generation false "KAMALA_HARRIS" none none
      (some "t") (some "s") envGood).calls =
      [Call.voicesList, Call.llm "s" "JOE_ROGAN" "BEN_SHAPIRO",
       Call.tts "emily" "hello", Call.tts "emily" "facts"] ∧
    (run_local_video_generation true "DONALD_TRUMP" (some "bg.mp4") none
      (some "t") (some "s") envGood).calls =
      [Call.voicesList, Call.llm "s" "JOE_ROGAN" "BEN_SHAPIRO",
       Call.tts "emily" "hello", Call.tts "emily" "facts"] := ⟨rfl, rfl⟩

/-- C2 (amended): the entry point takes only `filter`, `voice`,
`background_video`, `background_music`, `title` and `story` — no persona
identifiers.  Every LLM request any run issues has topic equal to the
story and the personas hard-coded to JOE_ROGAN and BEN_SHAPIRO. -/
theorem C2_personas_hardcoded (filter : Bool) (voice : String)
    (background_video background_music title story : Option String) (env : Env)
    (topic agent_a agent_b : String)
    (hc : Call.llm topic agent_a agent_b ∈
      (run_local_video_generation filter voice background_video background_music
        title story env).calls) :
    topic = story.getD "" ∧ agent_a = "JOE_ROGAN" ∧ agent_b = "BEN_SHAPIRO" := by
  rcases run_calls_mem filter voice background_video background_music title story env
    _ hc with h | h | h
  · cases h
  · rw [Call.llm.injEq] at h
    exact h
  · simp [Call.isTTS] at h

/-- C2 (witness). -/
theorem C2_personas_hardcoded_witness :
    "s" = (some "s").getD "" ∧ "JOE_ROGAN" = "JOE_ROGAN" ∧
      "BEN_SHAPIRO" = "BEN_SHAPIRO" :=
  C2_personas_hardcoded false "en_us_002" none none (some "t") (some "s") envGood
    "s" "JOE_ROGAN" "BEN_SHAPIRO" (by decide)

/-- C3 (counterexample): with the Groq key absent, the run's exception
propagates to the caller (the orchestrator re-raises it); no structured
success-false result is returned. -/
theorem C3_error_propagates_cex :
    (run_local_video_generation false "en_us_002" none none
      (some "t") (some "s") envNoGroq).result =
      Except.error "GROQ_API_KEY not configured" := rfl

/-- C3 (amended): on any fatal error, the orchestrator removes the run's
working directory and re-raises the same exception to the caller: the
final result carries the body's error unchanged, and no file under the
working directory survives.  No structured GenerationResult is built. -/
theorem C3_cleanup_then_reraise (filter : Bool) (voice : String)
    (background_video background_music title story : Option String) (env : Env)
    (msg : String)
    (h : (runBody filter voice background_video background_music title story
      env).result = Except.error msg) :
    (run_local_video_generation filter voice background_video background_music
      title story env).result = Except.error msg ∧
    ((run_local_video_generation filter voice background_video background_music
      title story env).files.all (fun p => !(strStartsWith p env.tempDir))) = true := by
  constructor
  · exact h
  · rw [run_files_filtered]
    exact all_filter_self _ _

/-- C3 (witness). -/
theorem C3_cleanup_then_reraise_witness :
    (run_local_video_generation false "en_us_002" none none
      (some "t") (some "s") envNoGroq).result =
      Except.error "GROQ_API_KEY not configured" ∧
    ((run_local_video_generation false "en_us_002" none none
      (some "t") (some "s") envNoGroq).files.all
        (fun p => !(strStartsWith p envNoGroq.tempDir))) = true :=
  C3_cleanup_then_reraise false "en_us_002" none none (some "t") (some "s")
    envNoGroq "GROQ_API_KEY not configured" rfl

/-- C4 (counterexample): with the TTS key absent (and the LLM key
present), the run still issues the LLM network request before failing —
refuting that a missing TTS key aborts before any outbound call. -/
theorem C4_llm_called_without_tts_key_cex :
    (run_local_video_generation false "en_us_002" none none
      (some "t") (some "s") envNoSpeechify).calls =
      [Call.llm "s" "JOE_ROGAN" "BEN_SHAPIRO"] ∧
    isOkResult (run_local_video_generation false "en_us_002" none none
      (some "t") (some "s") envNoSpeechify).result = false := ⟨rfl, rfl⟩

/-- C4 (amended): each component checks its own credential immediately
before its own request.  A missing LLM key makes the run raise with no
LLM and no TTS request ever issued (only the voice listing can have been
attempted); a missing TTS key suppresses the voice-listing and every TTS
request, but does not prevent the LLM request. -/
theorem C4_per_component_key_checks (filter : Bool) (voice : String)
    (background_video background_music title story : Option String)
    (env env2 : Env)
    (hg : env.groqKey = none) (hk2 : env2.speechifyKey = "") :
    (isOkResult (run_local_video_generation filter voice background_video
        background_music title story env).result = false ∧
      ((run_local_video_generation filter voice background_video background_music
        title story env).calls.all
          (fun c => !(c.isLLM) && !(c.isTTS))) = true) ∧
    ((run_local_video_generation filter voice background_video background_music
      title story env2).calls.all
        (fun c => !(c.isTTS) && !(c.isVoices))) = true := by
  obtain ⟨hres, hcalls⟩ := run_nogroq filter voice background_video background_music
    title story env hg
  refine ⟨⟨hres, ?_⟩, ?_⟩
  · rw [List.all_eq_true]
    intro c hc
    rw [hcalls c hc]
    rfl
  · rw [List.all_eq_true]
    intro c hc
    rw [run_calls_nokey filter voice background_video background_music
      title story env2 hk2 c hc]
    rfl

/-- C4 (witness). -/
theorem C4_per_component_key_checks_witness :
    (isOkResult (run_local_video_generation false "en_us_002" none none
        (some "t") (some "s") envNoGroq).result = false ∧
      ((run_local_video_generation false "en_us_002" none none
        (some "t") (some "s") envNoGroq).calls.all
          (fun c => !(c.isLLM) && !(c.isTTS))) = true) ∧
    ((run_local_video_generation false "en_us_002" none none
      (some "t") (some "s") envNoSpeechify).calls.all
        (fun c => !(c.isTTS) && !(c.isVoices))) = true :=
  C4_per_component_key_checks false "en_us_002" none none (some "t") (some "s")
    envNoGroq envNoSpeechify rfl rfl

/-- C5 (counterexample): an LLM body that parses to a JSON object with no
`transcript` key does not make the Transcript Generator fail — it
silently returns an empty transcript and proceeds. -/
theorem C5_missing_transcript_key_cex :
    generate_transcript envC5 "t" "A" "B" =
      (Except.ok (Json.arr []), [Call.llm "t" "A" "B"]) ∧
    isOkResult (generate_transcript envC5 "t" "A" "B").1 = true := ⟨rfl, rfl⟩

/-- C5 (amended): the Transcript Generator raises when the body is not
valid JSON, but a parsed object lacking the `transcript` key yields an
empty transcript array and the generator returns successfully. -/
theorem C5_malformed_body_behaviour (env env2 : Env)
    (topic agent_a agent_b k k2 : String) (fs : List (String × Json))
    (hg : env.groqKey = some k) (hst : env.llmStatus = 200)
    (hp : env.llmParsed = none)
    (hg2 : env2.groqKey = some k2) (hst2 : env2.llmStatus = 200)
    (hp2 : env2.llmParsed = some (Json.obj fs))
    (hf : fs.lookup "transcript" = none) :
    (generate_transcript env topic agent_a agent_b).1 =
      Except.error "JSONDecodeError" ∧
    (generate_transcript env2 topic agent_a agent_b).1 =
      Except.ok (Json.arr []) := by
  constructor
  · unfold generate_transcript
    rw [hg]
    simp [hst, hp]
  · unfold generate_transcript
    rw [hg2]
    simp [hst2, hp2, hf]

/-- C5 (witness). -/
theorem C5_malformed_body_behaviour_witness :
    (generate_transcript envBadJson "t" "A" "B").1 =
      Except.error "JSONDecodeError" ∧
    (generate_transcript envC5 "t" "A" "B").1 = Except.ok (Json.arr []) :=
  C5_malformed_body_behaviour envBadJson envC5 "t" "A" "B" "gk" "gk"
    [("foo", Json.str "x")] rfl rfl rfl rfl rfl rfl rfl

/-- C6 (counterexample): when the background-music file exists, the
assembler's command contains the two-input amix filter AND still contains
the stream-copy concatenation flags `-c copy -shortest` — the mix
arguments are appended to, not substituted for, the concat mode. -/
theorem C6_mix_keeps_copy_flags_cex :
    buildFfmpegCmd envC6 "out.mp4" (some "bgm.mp3") =
      ["ffmpeg", "-y", "-f", "concat", "-safe", "0", "-i", "/tmp/list.txt",
       "-c", "copy", "-shortest", "-i", "bgm.mp3", "-filter_complex",
       amixFilter, "-map", "[a]", "out.mp4"] ∧
    "-c" ∈ buildFfmpegCmd envC6 "out.mp4" (some "bgm.mp3") ∧
    "copy" ∈ buildFfmpegCmd envC6 "out.mp4" (some "bgm.mp3") ∧
    "-shortest" ∈ buildFfmpegCmd envC6 "out.mp4" (some "bgm.mp3") := by
  refine ⟨rfl, by decide, by decide, by decide⟩

/-- C6 (amended): when the supplied background-music path is non-empty
and exists, the mix arguments (second input, amix filter with weights
1 and 0.3 and duration capped to the first input, map from the mix) are
appended after the concat/stream-copy flags, which remain in the command;
when the path does not exist, the command is exactly the plain concat
command and the missing file is not an error — the call behaves as if no
music was supplied. -/
theorem C6_mode_selection (env : Env) (output_path m m2 : String)
    (h1 : env.pathExists m = true) (h2 : ¬ m = "")
    (h3 : env.pathExists m2 = false) :
    buildFfmpegCmd env output_path (some m) =
      concatBase env ++ mixArgs m ++ [output_path] ∧
    buildFfmpegCmd env output_path (some m2) =
      buildFfmpegCmd env output_path none ∧
    ∀ (audio_files : List String),
      create_video_from_audio env audio_files output_path (some m2) =
        create_video_from_audio env audio_files output_path none := by
  refine ⟨?_, ?_, ?_⟩
  · simp [buildFfmpegCmd, h1, h2]
  · simp [buildFfmpegCmd, h3]
  · intro audio_files
    simp [create_video_from_audio, buildFfmpegCmd, h3]

/-- C6 (witness). -/
theorem C6_mode_selection_witness :
    buildFfmpegCmd envC6 "out.mp4" (some "bgm.mp3") =
      concatBase envC6 ++ mixArgs "bgm.mp3" ++ ["out.mp4"] ∧
    buildFfmpegCmd envC6 "out.mp4" (some "missing.mp3") =
      buildFfmpegCmd envC6 "out.mp4" none ∧
    ∀ (audio_files : List String),
      create_video_from_audio envC6 audio_files "out.mp4" (some "missing.mp3") =
        create_video_from_audio envC6 audio_files "out.mp4" none :=
  C6_mode_selection envC6 "out.mp4" "bgm.mp3" "missing.mp3" rfl (by decide) rfl

/-- C7 (confirmed): a failing voice-listing request is non-fatal — the
orchestrator swallows it, resolves the fallback to the hard-coded
`en_us_002`, and an otherwise healthy run still completes successfully. -/
theorem C7_voice_catalog_nonfatal (filter : Bool) (voice : String)
    (background_video background_music title story : Option String) (env : Env)
    (t s k msg : String) (fields : List (String × Json)) (items : List Json)
    (es : List Entry)
    (hv : env.voicesResult = Except.error msg)
    (ht : title = some t) (ht' : ¬ t = "") (hs : story = some s) (hs' : ¬ s = "")
    (hg : env.groqKey = some k) (hst : env.llmStatus = 200)
    (hp : env.llmParsed = some (Json.obj fields))
    (htr : (fields.lookup "transcript").getD (Json.arr []) = Json.arr items)
    (hes : items.mapM entryOf = Except.ok es)
    (hk : ¬ env.speechifyKey = "")
    (htts : ∀ j, (env.ttsResponses j).status = 200 ∧ ¬ (env.ttsResponses j).audio_data = "")
    (hff : env.ffmpegSucceeds = true) :
    resolveFallback env = "en_us_002" ∧
    (run_local_video_generation filter voice background_video background_music
      title story env).result =
      Except.ok ("uploads/" ++ ("generated_video_" ++ env.timestamp ++ ".mp4")) := by
  obtain ⟨h1, h2, h3⟩ := run_success filter voice background_video background_music
    title story env t s k fields items es ht ht' hs hs' hg hst hp htr hes hk htts hff
  exact ⟨resolveFallback_error env msg hv, h1⟩

/-- C7 (witness). -/
theorem C7_voice_catalog_nonfatal_witness :
    resolveFallback envVoicesDown = "en_us_002" ∧
    (run_local_video_generation false "en_us_002" none none
      (some "t") (some "s") envVoicesDown).result =
      Except.ok ("uploads/" ++ ("generated_video_" ++ envVoicesDown.timestamp ++ ".mp4")) :=
  C7_voice_catalog_nonfatal false "en_us_002" none none (some "t") (some "s")
    envVoicesDown "t" "s" "gk" "boom"
    [("transcript", Json.arr
      [Json.obj [("agentId", Json.str "JOE_ROGAN"), ("text", Json.str "hello")],
       Json.obj [("agentId", Json.str "BEN_SHAPIRO"), ("text", Json.str "facts")]])]
    [Json.obj [("agentId", Json.str "JOE_ROGAN"), ("text", Json.str "hello")],
     Json.obj [("agentId", Json.str "BEN_SHAPIRO"), ("text", Json.str "facts")]]
    demoEntries rfl rfl (by decide) rfl (by decide) rfl rfl rfl rfl rfl
    (by decide) (fun j => ⟨rfl, by simp [envVoicesDown, envGood, goodTTS]⟩) rfl

/-- C8 (confirmed): on every exit path — success or failure at any step —
no file under the run's working directory survives the run: the `finally`
cleanup removes the working directory and all intermediate audio
artifacts inside it. -/
theorem C8_workdir_always_removed (filter : Bool) (voice : String)
    (background_video background_music title story : Option String) (env : Env) :
    ((run_local_video_generation filter voice background_video background_music
      title story env).files.all (fun p => !(strStartsWith p env.tempDir))) = true := by
  rw [run_files_filtered]
  exact all_filter_self _ _

/-- C9 (confirmed): on every run in which all per-line syntheses succeed
— whether or not the subsequent assembly does — the assembler receives
exactly one audio artifact per transcript line, in transcript
(sequenceIndex) order, the artifact for the i-th line being
`{voice_dir}/{agentId}-{i}.mp3` with 0-based `i` (see `artifactPaths`),
and their count equals the number of dialogue lines. -/
theorem C9_one_artifact_per_line_in_order (filter : Bool) (voice : String)
    (background_video background_music title story : Option String) (env : Env)
    (t s k : String) (fields : List (String × Json)) (items : List Json)
    (es : List Entry)
    (ht : title = some t) (ht' : ¬ t = "") (hs : story = some s) (hs' : ¬ s = "")
    (hg : env.groqKey = some k) (hst : env.llmStatus = 200)
    (hp : env.llmParsed = some (Json.obj fields))
    (htr : (fields.lookup "transcript").getD (Json.arr []) = Json.arr items)
    (hes : items.mapM entryOf = Except.ok es)
    (hk : ¬ env.speechifyKey = "")
    (htts : ∀ j, (env.ttsResponses j).status = 200 ∧ ¬ (env.ttsResponses j).audio_data = "") :
    (run_local_video_generation filter voice background_video background_music
      title story env).concatList =
      some (artifactPaths (env.tempDir ++ "/voice") es 0) ∧
    (artifactPaths (env.tempDir ++ "/voice") es 0).length = es.length := by
  refine ⟨?_, artifactPaths_length _ es 0⟩
  exact run_assembler_input filter voice background_video background_music
    title story env t s k fields items es ht ht' hs hs' hg hst hp htr hes hk htts

/-- C9 (witness): exercised on a run whose assembly step fails, showing
the artifact hand-off is unaffected by the ffmpeg outcome. -/
theorem C9_one_artifact_per_line_in_order_witness :
    (run_local_video_generation false "en_us_002" none none
      (some "t") (some "s") envFfmpegFail).concatList =
      some (artifactPaths (envFfmpegFail.tempDir ++ "/voice") demoEntries 0) ∧
    (artifactPaths (envFfmpegFail.tempDir ++ "/voice") demoEntries 0).length =
      demoEntries.length :=
  C9_one_artifact_per_line_in_order false "en_us_002" none none
    (some "t") (some "s") envFfmpegFail "t" "s" "gk"
    [("transcript", Json.arr
      [Json.obj [("agentId", Json.str "JOE_ROGAN"), ("text", Json.str "hello")],
       Json.obj [("agentId", Json.str "BEN_SHAPIRO"), ("text", Json.str "facts")]])]
    [Json.obj [("agentId", Json.str "JOE_ROGAN"), ("text", Json.str "hello")],
     Json.obj [("agentId", Json.str "BEN_SHAPIRO"), ("text", Json.str "facts")]]
    demoEntries rfl (by decide) rfl (by decide) rfl rfl rfl rfl rfl
    (by decide) (fun j => ⟨rfl, by simp [envFfmpegFail, envGood, goodTTS]⟩)

/-- C10 (confirmed): the `filter`, `voice` and `background_video`
parameters of the entry point are never read — two invocations differing
only in those three arguments have identical outcomes: same result, same
outbound requests, same commands, same surviving files. -/
theorem C10_unused_parameters (f1 f2 : Bool) (v1 v2 : String)
    (bv1 bv2 background_music title story : Option String) (env : Env) :
    run_local_video_generation f1 v1 bv1 background_music title story env =
    run_local_video_generation f2 v2 bv2 background_music title story env := rfl

end RedditShorts
